import Mathlib

/-!
Shallow embedding of `src/Transports/Consensus/Task.cpp` (DUNE consensus
transport task).  Floating-point salinity values and timestamps are modelled
as rationals, IPv4 addresses as 32-bit naturals, and the task's mutable
members as an explicit state record threaded through the operations.  The
serialization buffers (`m_bfr`, `m_bfr_loc`), the unused members
(`m_dune_uid`, `is_message_received`, the dead `m_local` computation in
`readMessage`) and logging calls have no observable effect on the state and
are omitted.  Ghost fields (`dispatched`, `merges`, `announces`, `clock`)
record the event trace: bus dispatches, calls to `stimateSalinity`, calls to
`announceEstimatedSalinity`, and the passage of wall-clock time.
-/

namespace Consensus

/-- IPv4 address (`DUNE::Network::Address`), as its 32-bit integer value. -/
structure Address where
  ip : Nat
deriving DecidableEq

/-- `127.0.0.1`. -/
def Address.loopback : Address := ⟨0x7f000001⟩

/-- `Address::Any` (`0.0.0.0`). -/
def Address.anyAddr : Address := ⟨0⟩

/-- `255.255.255.255`, the universal broadcast address. -/
def Address.broadcastAll : Address := ⟨0xffffffff⟩

/-- `Address::isLoopback`: the address lies in `127.0.0.0/8`. -/
def Address.isLoopback (a : Address) : Bool :=
  decide (0x7f000000 ≤ a.ip ∧ a.ip < 0x80000000)

/-- `Address::isAny`: the address is `0.0.0.0`. -/
def Address.isAny (a : Address) : Bool := a.ip == 0

/-- A network interface as seen by `DUNE::Network::Interface::get()`:
its own address and its broadcast address. -/
structure Interface where
  address : Address
  broadcast : Address
deriving DecidableEq

/-- `struct Destination` of the source: address, port, locality flag
(`local` in the source; renamed because `local` is a Lean keyword). -/
structure Destination where
  addr : Address
  port : Nat
  isLocal : Bool
deriving DecidableEq

/-- `struct Arguments` of the source (the task's configuration). -/
structure Arguments where
  ports : List Nat
  enable_mcast : Bool
  enable_bcast : Bool
  enable_lback : Bool
  addr_mcast : Address
  ignored_interfaces : List String
  max_acceptable_salinity : ℚ
  trace_in : Bool
  measured_salinity : Nat
deriving DecidableEq

/-- An `IMC::Salinity` message: scalar value, header timestamp, header
source identifier. -/
structure Salinity where
  value : ℚ
  timestamp : ℚ
  source : Nat
deriving DecidableEq

/-- A decoded inbound IMC message: either a salinity message or a message
of some other id (`msg->getId() != DUNE_IMC_SALINITY`). -/
inductive Packet where
  | salinity (s : Salinity)
  | other (id : Nat)
deriving DecidableEq

/-- The task's mutable state (`struct Task`), plus ghost trace fields. -/
structure Task where
  /-- `m_tstamps : std::map<Address, double>`, as an association list. -/
  m_tstamps : List (Address × ℚ)
  /-- `m_salinity_received : IMC::Salinity *` (null ↦ `none`). -/
  m_salinity_received : Option Salinity
  /-- `m_salinity_estimated_local : IMC::Salinity`. -/
  m_salinity_estimated_local : Salinity
  /-- `m_dsts : std::vector<Destination>`. -/
  m_dsts : List Destination
  /-- Ghost: messages dispatched onto the internal IMC bus, in order. -/
  dispatched : List Salinity
  /-- Ghost: number of completed calls to `stimateSalinity`. -/
  merges : Nat
  /-- Ghost: number of completed calls to `announceEstimatedSalinity`. -/
  announces : Nat
  /-- Ghost: wall-clock time used by `setTimeStamp()`. -/
  clock : Nat
deriving DecidableEq

/-- The state at task start: empty timestamp map, no received salinity,
default-constructed local estimate (value 0, IMC null source `0xFFFF`). -/
def initState : Task :=
  { m_tstamps := []
    m_salinity_received := none
    m_salinity_estimated_local := { value := 0, timestamp := 0, source := 0xFFFF }
    m_dsts := []
    dispatched := []
    merges := 0
    announces := 0
    clock := 0 }

/-- `std::map::find` on the timestamp map. -/
def tlookup : List (Address × ℚ) → Address → Option ℚ
  | [], _ => none
  | (b, u) :: rest, a => if b = a then some u else tlookup rest a

/-- `itr->second = ts` / `m_tstamps[addr] = ts`: update the entry if the
address is present, insert it otherwise. -/
def tset : List (Address × ℚ) → Address → ℚ → List (Address × ℚ)
  | [], a, t => [(a, t)]
  | (b, u) :: rest, a, t =>
      if b = a then (a, t) :: rest else (b, u) :: tset rest a t

/-- `probeInterfaces` (source lines 280–343): rebuild the destination list
from the configuration and the current interfaces.  Loopback endpoints
first, then multicast, then the universal broadcast address and the
per-interface broadcast addresses (interfaces that are loopback or whose
broadcast address is `any` are skipped).  The configured
`ignored_interfaces` are never consulted. -/
def probeInterfaces (args : Arguments) (itfs : List Interface) : List Destination :=
  (if args.enable_lback then
    args.ports.map (fun p => { addr := Address.loopback, port := p, isLocal := true })
   else []) ++
  (if args.enable_mcast then
    args.ports.map (fun p => { addr := args.addr_mcast, port := p, isLocal := false })
   else []) ++
  (if args.enable_bcast then
    args.ports.map (fun p => { addr := Address.broadcastAll, port := p, isLocal := false }) ++
    (itfs.filter
        (fun i => !(i.address.isLoopback || i.broadcast.isAny))).flatMap
      (fun i => args.ports.map
        (fun p => { addr := i.broadcast, port := p, isLocal := false }))
   else [])

/-- `stimateSalinity` (source lines 345–368, without the trailing call to
`announceEstimatedSalinity`): the accumulation-policy merge.  If no
salinity was ever received, the local estimate is set to the configured
measured salinity; otherwise, if the local estimate's absolute value is
below the bound, the received value is added to it and the received value
is zeroed; otherwise the local estimate is set to the bound. -/
def stimateSalinity (args : Arguments) (st : Task) : Task :=
  match st.m_salinity_received with
  | none =>
      { st with
        m_salinity_estimated_local :=
          { st.m_salinity_estimated_local with value := (args.measured_salinity : ℚ) }
        merges := st.merges + 1 }
  | some r =>
      if |st.m_salinity_estimated_local.value| < args.max_acceptable_salinity then
        { st with
          m_salinity_estimated_local :=
            { st.m_salinity_estimated_local with
              value := r.value + st.m_salinity_estimated_local.value }
          m_salinity_received := some { r with value := 0 }
          merges := st.merges + 1 }
      else
        { st with
          m_salinity_estimated_local :=
            { st.m_salinity_estimated_local with value := args.max_acceptable_salinity }
          merges := st.merges + 1 }

/-- `announceEstimatedSalinity` (source lines 374–402): recompute the
destination list, stamp the local estimate with the current time, dispatch
it onto the internal bus (which stamps its source with the local system
id), and attempt a best-effort UDP send to every non-local destination
(modelled separately by `trySendAll`; sends do not affect task state). -/
def announceEstimatedSalinity (args : Arguments) (sysId : Nat) (itfs : List Interface)
    (st : Task) : Task :=
  let stamped : Salinity :=
    { st.m_salinity_estimated_local with timestamp := (st.clock : ℚ), source := sysId }
  { st with
    m_dsts := probeInterfaces args itfs
    m_salinity_estimated_local := stamped
    dispatched := st.dispatched ++ [stamped]
    announces := st.announces + 1 }

/-- `stimateSalinity` as called in the source: the merge followed by the
announce (source line 371). -/
def stimateThenAnnounce (args : Arguments) (sysId : Nat) (itfs : List Interface)
    (st : Task) : Task :=
  announceEstimatedSalinity args sysId itfs (stimateSalinity args st)

/-- The tail of `readMessage` after the duplicate check (source lines
229–263): reject self-echoes, otherwise store the received salinity,
dispatch it on the bus, and re-estimate (merge + announce). -/
def acceptMessage (args : Arguments) (sysId : Nat) (itfs : List Interface)
    (st : Task) (s : Salinity) : Task :=
  if st.m_salinity_estimated_local.source = s.source then st
  else
    stimateThenAnnounce args sysId itfs
      { st with
        m_salinity_received := some s
        dispatched := st.dispatched ++ [s] }

/-- `readMessage` (source lines 183–264): decode the datagram, discard
null or non-salinity messages, suppress duplicates by (sender address,
timestamp), record new timestamps, then hand over to the acceptance path. -/
def readMessage (args : Arguments) (sysId : Nat) (itfs : List Interface)
    (st : Task) (addr : Address) (pkt : Option Packet) : Task :=
  match pkt with
  | none => st
  | some (Packet.other _) => st
  | some (Packet.salinity s) =>
      match tlookup st.m_tstamps addr with
      | some ts =>
          if ts = s.timestamp then st
          else acceptMessage args sysId itfs
                 { st with m_tstamps := tset st.m_tstamps addr s.timestamp } s
      | none =>
          acceptMessage args sysId itfs
            { st with m_tstamps := tset st.m_tstamps addr s.timestamp } s

/-- `consume(const IMC::Salinity *)` (source lines 271–278): overwrite the
stored received salinity (or allocate it) — in either case the stored
received estimate becomes a copy of the bus message, unconditionally. -/
def consume (st : Task) (msg : Salinity) : Task :=
  { st with m_salinity_received := some msg }

/-- One iteration's external stimulus: the 1-second poll either times out
or delivers a datagram (sender address and decode result). -/
inductive LoopEvent where
  | timeout
  | datagram (addr : Address) (pkt : Option Packet)

/-- `Delay::wait(1.0)` and the poll interval: wall-clock time advances. -/
def tick (st : Task) : Task := { st with clock := st.clock + 1 }

/-- One iteration of the `onMain` loop (source lines 411–424): wait, poll;
on timeout nothing further happens, on a datagram `readMessage` runs. -/
def loopStep (args : Arguments) (sysId : Nat) (itfs : List Interface)
    (st : Task) : LoopEvent → Task
  | LoopEvent.timeout => tick st
  | LoopEvent.datagram addr pkt => readMessage args sysId itfs (tick st) addr pkt

/-- `onMain` (source lines 405–425) over a finite schedule of events: one
estimation + announce at startup, then the poll loop until stopped. -/
def onMain (args : Arguments) (sysId : Nat) (itfs : List Interface)
    (events : List LoopEvent) : Task :=
  events.foldl (loopStep args sysId itfs) (stimateThenAnnounce args sysId itfs initState)

/-- The send loop of `announceEstimatedSalinity` (source lines 388–399):
for each destination in order, inside a `try`/`catch (...)` block, write to
it unless it is local; a throwing send (`Except.error`) is swallowed and
the loop continues.  Returns each attempted destination with its send
outcome. -/
def trySendAll (send : Destination → Except Unit Unit) :
    List Destination → List (Destination × Bool)
  | [] => []
  | d :: rest =>
      (if d.isLocal then []
       else match send d with
         | Except.ok _ => [(d, true)]
         | Except.error _ => [(d, false)]) ++ trySendAll send rest

/-- Accepted peer estimates folded into the local estimate by the
accumulation policy: the startup merge from the baseline, then, for each
accepted estimate in sequence, storing it as the received salinity
(source line 238) and merging. -/
def mergeAccept (args : Arguments) (st : Task) (s : Salinity) : Task :=
  stimateSalinity args { st with m_salinity_received := some s }

/-- Fold a sequence of accepted peer estimates through the merge, starting
from the startup merge (which installs the baseline). -/
def foldEstimates (args : Arguments) (es : List Salinity) : Task :=
  es.foldl (mergeAccept args) (stimateSalinity args initState)

/-- Modelled from the spec (§4.3 drain-and-clamp), for comparison with
`stimateSalinity`: "if no estimate has ever been received, newLocal =
baseline. Else if |local| < bound, newLocal = local + received.value, and
the received estimate's value is reset to zero after being drained. Else
newLocal = bound."  Returns (newLocal, new received value). -/
def drainAndClampSpec (bound baseline localVal : ℚ) :
    Option ℚ → ℚ × Option ℚ
  | none => (baseline, none)
  | some v =>
      if |localVal| < bound then (localVal + v, some 0) else (bound, some v)

/-- The source's default configuration: ports 31100–31104, multicast and
broadcast enabled, loopback disabled, multicast group `224.0.75.69`,
ignored interfaces `eth0:prv`, bound ("Delta") 10, baseline measured
salinity 1. -/
def baseArgs : Arguments :=
  { ports := [31100, 31101, 31102, 31103, 31104]
    enable_mcast := true
    enable_bcast := true
    enable_lback := false
    addr_mcast := ⟨0xe0004b45⟩
    ignored_interfaces := ["eth0:prv"]
    max_acceptable_salinity := 10
    trace_in := false
    measured_salinity := 1 }

/-- A broadcast-only configuration with two ports (for endpoint counting). -/
def cfgBcast : Arguments :=
  { baseArgs with
    ports := [31100, 31101]
    enable_mcast := false
    enable_bcast := true
    enable_lback := false }

/-- Three non-loopback interfaces, each with a defined broadcast address. -/
def itfs3 : List Interface :=
  [ { address := ⟨0x0a000001⟩, broadcast := ⟨0x0a0000ff⟩ }
  , { address := ⟨0x0a000101⟩, broadcast := ⟨0x0a0001ff⟩ }
  , { address := ⟨0x0a000201⟩, broadcast := ⟨0x0a0002ff⟩ } ]

/-- A state whose local estimate (value 12) is already past the bound 10,
with a pending received estimate of value 5. -/
def stSat : Task :=
  { initState with
    m_salinity_received := some { value := 5, timestamp := 2, source := 7 }
    m_salinity_estimated_local := { value := 12, timestamp := 0, source := 0xFFFF } }

/-- A post-startup state (local estimate at the baseline 1) holding a
freshly accepted peer estimate of value 3 (spec scenario B). -/
def stRecvB : Task :=
  { initState with
    m_salinity_received := some { value := 3, timestamp := 5, source := 7 }
    m_salinity_estimated_local := { value := 1, timestamp := 0, source := 0xFFFF } }

/-- A post-startup state (local estimate at the baseline 1) holding a
freshly accepted peer estimate of value 100. -/
def stOver : Task :=
  { initState with
    m_salinity_received := some { value := 100, timestamp := 5, source := 7 }
    m_salinity_estimated_local := { value := 1, timestamp := 0, source := 0xFFFF } }

/-- Looking up an address right after its timestamp was stored finds that
timestamp. -/
theorem tlookup_tset (l : List (Address × ℚ)) (a : Address) (t : ℚ) :
    tlookup (tset l a t) a = some t := by
  induction l with
  | nil => simp [tset, tlookup]
  | cons p rest ih =>
      obtain ⟨b, u⟩ := p
      by_cases h : b = a
      · simp [tset, tlookup, h]
      · simp [tset, tlookup, h, ih]

/-- The merge touches only the local estimate's value, the received
estimate and the merge counter. -/
theorem stimateSalinity_frame (args : Arguments) (st : Task) :
    (stimateSalinity args st).m_tstamps = st.m_tstamps ∧
    (stimateSalinity args st).dispatched = st.dispatched ∧
    (stimateSalinity args st).announces = st.announces ∧
    (stimateSalinity args st).merges = st.merges + 1 ∧
    (stimateSalinity args st).clock = st.clock := by
  unfold stimateSalinity
  cases st.m_salinity_received with
  | none => simp
  | some r =>
      by_cases h : |st.m_salinity_estimated_local.value| < args.max_acceptable_salinity <;>
        simp [h]

/-- Merge-then-announce preserves the timestamp map and bumps both the
merge and announce counters once. -/
theorem stimateThenAnnounce_frame (args : Arguments) (sysId : Nat)
    (itfs : List Interface) (st : Task) :
    (stimateThenAnnounce args sysId itfs st).m_tstamps = st.m_tstamps ∧
    (stimateThenAnnounce args sysId itfs st).merges = st.merges + 1 ∧
    (stimateThenAnnounce args sysId itfs st).announces = st.announces + 1 := by
  have h := stimateSalinity_frame args st
  simp [stimateThenAnnounce, announceEstimatedSalinity, h.1, h.2.2.1, h.2.2.2.1]

/-- `readMessage` on a fresh (non-duplicate), non-self salinity datagram:
record the timestamp, store the received estimate, dispatch it, and
merge-then-announce. -/
theorem readMessage_accepts (args : Arguments) (sysId : Nat) (itfs : List Interface)
    (st : Task) (addr : Address) (s : Salinity)
    (hdup : tlookup st.m_tstamps addr ≠ some s.timestamp)
    (hself : s.source ≠ st.m_salinity_estimated_local.source) :
    readMessage args sysId itfs st addr (some (Packet.salinity s)) =
      stimateThenAnnounce args sysId itfs
        { st with
          m_tstamps := tset st.m_tstamps addr s.timestamp
          m_salinity_received := some s
          dispatched := st.dispatched ++ [s] } := by
  have hself2 : ¬ st.m_salinity_estimated_local.source = s.source :=
    fun he => hself he.symm
  simp only [readMessage]
  cases h : tlookup st.m_tstamps addr with
  | none => simp [acceptMessage, hself2]
  | some ts =>
      have hne : ¬ ts = s.timestamp := fun he => hdup (by rw [h, he])
      simp [hne, acceptMessage, hself2]

/-- C10: endpoint discovery is independent of the configured
ignored-interfaces setting — for every interface set, configurations
differing only in `ignored_interfaces` yield the same endpoint list (the
setting is never consulted by `probeInterfaces`). -/
theorem C10_ignored_interfaces_unused (args : Arguments) (itfs : List Interface)
    (ign : List String) :
    probeInterfaces { args with ignored_interfaces := ign } itfs =
      probeInterfaces args itfs := rfl

/-- C7: during an announce, a failing send (`Except.error`) to one
destination is swallowed by the per-destination catch: the send loop is a
total function and attempts every non-local destination in the list, in
order, whatever the send outcomes are. -/
theorem C7_send_failure_isolated (send : Destination → Except Unit Unit)
    (dsts : List Destination) :
    (trySendAll send dsts).map Prod.fst = dsts.filter (fun d => !d.isLocal) := by
  induction dsts with
  | nil => rfl
  | cons d rest ih =>
      cases hl : d.isLocal <;> cases hs : send d <;>
        simp [trySendAll, hl, hs, ih]

/-- C8: `consume` overwrites the stored received estimate unconditionally
(no duplicate, self-echo or type check is consulted, and no other state
changes), and the message `announceEstimatedSalinity` dispatches onto the
bus is exactly the node's own re-stamped local estimate — so consuming
one's own announcement installs it as the received estimate. -/
theorem C8_consume_unconditional :
    (∀ (st : Task) (msg : Salinity),
      (consume st msg).m_salinity_received = some msg ∧
      (consume st msg).m_tstamps = st.m_tstamps ∧
      (consume st msg).m_salinity_estimated_local = st.m_salinity_estimated_local) ∧
    (∀ (args : Arguments) (sysId : Nat) (itfs : List Interface) (st : Task),
      (announceEstimatedSalinity args sysId itfs st).dispatched =
        st.dispatched ++
          [(announceEstimatedSalinity args sysId itfs st).m_salinity_estimated_local] ∧
      (consume (announceEstimatedSalinity args sysId itfs st)
          (announceEstimatedSalinity args sysId itfs st).m_salinity_estimated_local).m_salinity_received =
        some (announceEstimatedSalinity args sysId itfs st).m_salinity_estimated_local) :=
  ⟨fun _ _ => ⟨rfl, rfl, rfl⟩, fun _ _ _ _ => ⟨rfl, rfl⟩⟩

/-- C9: when the merge takes the saturation branch (the local estimate's
magnitude is at or above the bound), the received estimate is left
exactly as it was — its pending value is not drained to zero. -/
theorem C9_saturation_keeps_received (args : Arguments) (st : Task) (r : Salinity)
    (hr : st.m_salinity_received = some r)
    (hsat : args.max_acceptable_salinity ≤ |st.m_salinity_estimated_local.value|) :
    (stimateSalinity args st).m_salinity_received = st.m_salinity_received := by
  simp only [stimateSalinity, hr]
  rw [if_neg (not_lt.mpr hsat)]

/-- Witness for C9: bound 10, local estimate 12, pending received value 5. -/
theorem C9_saturation_keeps_received_witness :
    stSat.m_salinity_received = some { value := 5, timestamp := 2, source := 7 } ∧
    baseArgs.max_acceptable_salinity ≤ |stSat.m_salinity_estimated_local.value| ∧
    (stimateSalinity baseArgs stSat).m_salinity_received = stSat.m_salinity_received :=
  ⟨by decide, by decide,
    C9_saturation_keeps_received baseArgs stSat
      { value := 5, timestamp := 2, source := 7 } (by decide) (by decide)⟩

/-- C5: an inbound datagram whose decoded source identifier equals the
local node's own identifier (the source carried by the local estimate) is
rejected by the inbound filter: whatever its value and timestamp, it
changes neither the local estimate, nor the received estimate, nor the
merge/announce counts. -/
theorem C5_self_echo_rejected (args : Arguments) (sysId : Nat) (itfs : List Interface)
    (st : Task) (addr : Address) (s : Salinity)
    (hself : s.source = st.m_salinity_estimated_local.source) :
    (readMessage args sysId itfs st addr
        (some (Packet.salinity s))).m_salinity_estimated_local =
      st.m_salinity_estimated_local ∧
    (readMessage args sysId itfs st addr
        (some (Packet.salinity s))).m_salinity_received = st.m_salinity_received ∧
    (readMessage args sysId itfs st addr (some (Packet.salinity s))).merges = st.merges ∧
    (readMessage args sysId itfs st addr (some (Packet.salinity s))).announces =
      st.announces := by
  have hself2 : st.m_salinity_estimated_local.source = s.source := hself.symm
  simp only [readMessage]
  cases h : tlookup st.m_tstamps addr with
  | none => simp [acceptMessage, hself2]
  | some ts =>
      by_cases he : ts = s.timestamp
      · simp [he]
      · simp [he, acceptMessage, hself2]

/-- Witness for C5: a self-echo (source `0xFFFF`, matching the initial
local estimate) with value 3 and timestamp 5, from address `10.0.0.9`. -/
theorem C5_self_echo_rejected_witness :
    (({ value := 3, timestamp := 5, source := 0xFFFF } : Salinity)).source =
      initState.m_salinity_estimated_local.source ∧
    (readMessage baseArgs 20 itfs3 initState ⟨0x0a000009⟩
        (some (Packet.salinity { value := 3, timestamp := 5, source := 0xFFFF }))).m_salinity_estimated_local =
      initState.m_salinity_estimated_local ∧
    (readMessage baseArgs 20 itfs3 initState ⟨0x0a000009⟩
        (some (Packet.salinity { value := 3, timestamp := 5, source := 0xFFFF }))).merges =
      initState.merges :=
  ⟨by decide,
    (C5_self_echo_rejected baseArgs 20 itfs3 initState ⟨0x0a000009⟩
      { value := 3, timestamp := 5, source := 0xFFFF } (by decide)).1,
    (C5_self_echo_rejected baseArgs 20 itfs3 initState ⟨0x0a000009⟩
      { value := 3, timestamp := 5, source := 0xFFFF } (by decide)).2.2.1⟩

/-- Length of a flatMap whose pieces all have the same length. -/
theorem length_flatMap_const {α β : Type} (l : List α) (f : α → List β) (n : Nat)
    (h : ∀ a ∈ l, (f a).length = n) : (l.flatMap f).length = l.length * n := by
  induction l with
  | nil => simp
  | cons a rest ih =>
      simp only [List.flatMap_cons, List.length_append, List.length_cons]
      rw [h a (List.mem_cons_self a rest), ih (fun b hb => h b (List.mem_cons_of_mem a hb))]
      ring

/-- C4: delivering a fresh, non-self salinity datagram performs exactly
one merge, and re-delivering the identical (sender address, timestamp)
datagram is rejected as a duplicate: the second delivery returns the state
completely unchanged (neither the timestamp record nor the estimates nor
any counter moves). -/
theorem C4_duplicate_single_merge (args : Arguments) (sysId : Nat)
    (itfs : List Interface) (st : Task) (addr : Address) (s : Salinity)
    (hdup : tlookup st.m_tstamps addr ≠ some s.timestamp)
    (hself : s.source ≠ st.m_salinity_estimated_local.source) :
    (readMessage args sysId itfs st addr (some (Packet.salinity s))).merges =
      st.merges + 1 ∧
    readMessage args sysId itfs
        (readMessage args sysId itfs st addr (some (Packet.salinity s)))
        addr (some (Packet.salinity s)) =
      readMessage args sysId itfs st addr (some (Packet.salinity s)) := by
  have hacc := readMessage_accepts args sysId itfs st addr s hdup hself
  have hframe := stimateThenAnnounce_frame args sysId itfs
    { st with
      m_tstamps := tset st.m_tstamps addr s.timestamp
      m_salinity_received := some s
      dispatched := st.dispatched ++ [s] }
  refine ⟨?_, ?_⟩
  · rw [hacc]; exact hframe.2.1
  · rw [hacc]
    simp [readMessage, hframe.1, tlookup_tset]

/-- Witness for C4: a peer message (value 3, timestamp 5, source 7) from
address `10.0.0.9` delivered twice to the freshly started node. -/
theorem C4_duplicate_single_merge_witness :
    tlookup initState.m_tstamps ⟨0x0a000009⟩ ≠
      some (({ value := 3, timestamp := 5, source := 7 } : Salinity)).timestamp ∧
    (({ value := 3, timestamp := 5, source := 7 } : Salinity)).source ≠
      initState.m_salinity_estimated_local.source ∧
    ((readMessage baseArgs 20 itfs3 initState ⟨0x0a000009⟩
        (some (Packet.salinity { value := 3, timestamp := 5, source := 7 }))).merges =
      initState.merges + 1 ∧
    readMessage baseArgs 20 itfs3
        (readMessage baseArgs 20 itfs3 initState ⟨0x0a000009⟩
          (some (Packet.salinity { value := 3, timestamp := 5, source := 7 })))
        ⟨0x0a000009⟩ (some (Packet.salinity { value := 3, timestamp := 5, source := 7 })) =
      readMessage baseArgs 20 itfs3 initState ⟨0x0a000009⟩
        (some (Packet.salinity { value := 3, timestamp := 5, source := 7 }))) :=
  ⟨by decide, by decide,
    C4_duplicate_single_merge baseArgs 20 itfs3 initState ⟨0x0a000009⟩
      { value := 3, timestamp := 5, source := 7 } (by decide) (by decide)⟩

/-- C6: with broadcast enabled, loopback and multicast disabled, and every
interface non-loopback with a defined broadcast address, discovery yields
the global-broadcast endpoint for each port followed by one endpoint per
interface per port — (1 + n) · p endpoints in insertion order, all
non-local. -/
theorem C6_broadcast_endpoints (args : Arguments) (itfs : List Interface)
    (hb : args.enable_bcast = true) (hl : args.enable_lback = false)
    (hm : args.enable_mcast = false)
    (hi : ∀ i ∈ itfs, i.address.isLoopback = false ∧ i.broadcast.isAny = false) :
    probeInterfaces args itfs =
      (args.ports.map fun p =>
        { addr := Address.broadcastAll, port := p, isLocal := false }) ++
        itfs.flatMap (fun i => args.ports.map fun p =>
          { addr := i.broadcast, port := p, isLocal := false }) ∧
    (probeInterfaces args itfs).length = (1 + itfs.length) * args.ports.length ∧
    ∀ d ∈ probeInterfaces args itfs, d.isLocal = false := by
  have hfilter :
      itfs.filter (fun i => !i.address.isLoopback && !i.broadcast.isAny) = itfs := by
    apply List.filter_eq_self.mpr
    intro i hi'
    simp [(hi i hi').1, (hi i hi').2]
  have heq : probeInterfaces args itfs =
      (args.ports.map fun p =>
        { addr := Address.broadcastAll, port := p, isLocal := false }) ++
        itfs.flatMap (fun i => args.ports.map fun p =>
          { addr := i.broadcast, port := p, isLocal := false }) := by
    simp [probeInterfaces, hb, hl, hm, hfilter]
  refine ⟨heq, ?_, ?_⟩
  · rw [heq, List.length_append, List.length_map,
      length_flatMap_const itfs _ args.ports.length (fun a _ => List.length_map _ _)]
    ring
  · rw [heq]
    intro d hd
    rcases List.mem_append.mp hd with h | h
    · rcases List.mem_map.mp h with ⟨p, _, rfl⟩; rfl
    · rcases List.mem_flatMap.mp h with ⟨j, _, hmem⟩
      rcases List.mem_map.mp hmem with ⟨p, _, rfl⟩; rfl

/-- Witness for C6: three interfaces, two ports — exactly 8 endpoints. -/
theorem C6_broadcast_endpoints_witness :
    cfgBcast.enable_bcast = true ∧ cfgBcast.enable_lback = false ∧
    cfgBcast.enable_mcast = false ∧
    (∀ i ∈ itfs3, i.address.isLoopback = false ∧ i.broadcast.isAny = false) ∧
    (probeInterfaces cfgBcast itfs3).length = (1 + itfs3.length) * cfgBcast.ports.length ∧
    (1 + itfs3.length) * cfgBcast.ports.length = 8 :=
  ⟨by decide, by decide, by decide, by decide,
    (C6_broadcast_endpoints cfgBcast itfs3 (by decide) (by decide) (by decide)
      (by decide)).2.1,
    by decide⟩

/-- C3 fails as stated: one poll-timeout iteration after startup leaves the
announce count at 1 — the startup announce — so the timeout branch of the
loop does not re-announce (a re-announce would have made it 2). -/
theorem C3_counterexample :
    (onMain baseArgs 20 itfs3 [LoopEvent.timeout]).announces = 1 ∧
    (onMain baseArgs 20 itfs3 []).announces = 1 := by
  constructor <;> rfl

/-- C3 amended: the node announces exactly once at startup, and a wait
timeout with no datagram performs no announce at all — the iteration only
advances the clock and returns to waiting; further announces are
receipt-driven. -/
theorem C3_timeout_no_reannounce :
    (∀ (args : Arguments) (sysId : Nat) (itfs : List Interface) (st : Task),
      loopStep args sysId itfs st LoopEvent.timeout = tick st ∧
      (loopStep args sysId itfs st LoopEvent.timeout).announces = st.announces) ∧
    (∀ (args : Arguments) (sysId : Nat) (itfs : List Interface),
      (onMain args sysId itfs []).announces = 1) :=
  ⟨fun _ _ _ _ => ⟨rfl, rfl⟩, fun _ _ _ => rfl⟩

/-- C2 fails in its parenthetical: after an add-branch merge that
overshoots the bound (1 + 100 = 101 with bound 10), the received value is
drained to 0 — yet a subsequent merge with no new message does change the
local estimate (it clamps 101 down to 10). -/
theorem C2_counterexample :
    (stimateSalinity baseArgs stOver).m_salinity_received =
      some { value := 0, timestamp := 5, source := 7 } ∧
    (stimateSalinity baseArgs
        (stimateSalinity baseArgs stOver)).m_salinity_estimated_local.value ≠
      (stimateSalinity baseArgs stOver).m_salinity_estimated_local.value := by
  have h1 : (stimateSalinity baseArgs stOver).m_salinity_received =
      some { value := 0, timestamp := 5, source := 7 } := by
    simp only [stimateSalinity, stOver, initState, baseArgs]
    norm_num
  have h2 : (stimateSalinity baseArgs stOver).m_salinity_estimated_local.value = 101 := by
    simp only [stimateSalinity, stOver, initState, baseArgs]
    norm_num
  refine ⟨h1, ?_⟩
  generalize hg : stimateSalinity baseArgs stOver = st1 at h1 h2 ⊢
  simp only [stimateSalinity, h1, h2, baseArgs]
  norm_num

/-- C2 amended: the merge is exactly the drain-and-clamp rule of the spec
(baseline when nothing was ever received; add the received value and zero
it out when the local magnitude is below the bound; clamp to the bound
otherwise), and a subsequent merge with no new message leaves the local
estimate unchanged provided the post-add magnitude is still strictly below
the bound. -/
theorem C2_drain_and_clamp :
    (∀ (args : Arguments) (st : Task),
      ((stimateSalinity args st).m_salinity_estimated_local.value,
        Option.map Salinity.value (stimateSalinity args st).m_salinity_received) =
        drainAndClampSpec args.max_acceptable_salinity ((args.measured_salinity : ℚ))
          st.m_salinity_estimated_local.value
          (Option.map Salinity.value st.m_salinity_received)) ∧
    (∀ (args : Arguments) (st : Task) (r : Salinity),
      st.m_salinity_received = some r →
      |st.m_salinity_estimated_local.value| < args.max_acceptable_salinity →
      |r.value + st.m_salinity_estimated_local.value| < args.max_acceptable_salinity →
      (stimateSalinity args
          (stimateSalinity args st)).m_salinity_estimated_local.value =
        (stimateSalinity args st).m_salinity_estimated_local.value) := by
  constructor
  · intro args st
    cases hr : st.m_salinity_received with
    | none => simp [stimateSalinity, hr, drainAndClampSpec]
    | some r =>
        by_cases h : |st.m_salinity_estimated_local.value| < args.max_acceptable_salinity
        · simp [stimateSalinity, hr, drainAndClampSpec, h, add_comm]
        · simp [stimateSalinity, hr, drainAndClampSpec, h]
  · intro args st r hr hlt hlt2
    have hstep : (stimateSalinity args st).m_salinity_received =
        some { r with value := 0 } ∧
        (stimateSalinity args st).m_salinity_estimated_local.value =
          r.value + st.m_salinity_estimated_local.value := by
      simp [stimateSalinity, hr, hlt]
    generalize hg : stimateSalinity args st = st1 at hstep ⊢
    obtain ⟨hrec, hval⟩ := hstep
    have hcond : |st1.m_salinity_estimated_local.value| <
        args.max_acceptable_salinity := by
      rw [hval]; exact hlt2
    simp only [stimateSalinity, hrec]
    rw [if_pos hcond]
    simp

/-- Witness for C2, spec scenario B: baseline 1, bound 10, received value
3 — the merge yields 4 and a second merge leaves it at 4. -/
theorem C2_drain_and_clamp_witness :
    stRecvB.m_salinity_received = some { value := 3, timestamp := 5, source := 7 } ∧
    |stRecvB.m_salinity_estimated_local.value| < baseArgs.max_acceptable_salinity ∧
    |(({ value := 3, timestamp := 5, source := 7 } : Salinity)).value +
        stRecvB.m_salinity_estimated_local.value| < baseArgs.max_acceptable_salinity ∧
    (stimateSalinity baseArgs
        (stimateSalinity baseArgs stRecvB)).m_salinity_estimated_local.value =
      (stimateSalinity baseArgs stRecvB).m_salinity_estimated_local.value :=
  ⟨by decide, by decide, by norm_num [stRecvB, initState, baseArgs],
    C2_drain_and_clamp.2 baseArgs stRecvB { value := 3, timestamp := 5, source := 7 }
      (by decide) (by decide) (by norm_num [stRecvB, initState, baseArgs])⟩

/-- Folding one more accepted estimate of magnitude at most M keeps the
local estimate within max(baseline, bound + M). -/
theorem mergeAccept_abs_le (args : Arguments) (M : ℚ)
    (hb : 0 ≤ args.max_acceptable_salinity) (hM : 0 ≤ M)
    (st : Task) (s : Salinity) (hs : |s.value| ≤ M) :
    |(mergeAccept args st s).m_salinity_estimated_local.value| ≤
      max ((args.measured_salinity : ℚ)) (args.max_acceptable_salinity + M) := by
  have hmax : args.max_acceptable_salinity + M ≤
      max ((args.measured_salinity : ℚ)) (args.max_acceptable_salinity + M) :=
    le_max_right _ _
  unfold mergeAccept stimateSalinity
  by_cases h : |st.m_salinity_estimated_local.value| < args.max_acceptable_salinity
  · simp only [h, if_true, if_pos]
    have habs := abs_add s.value st.m_salinity_estimated_local.value
    linarith
  · simp only [h, if_false, if_neg]
    rw [abs_of_nonneg hb]
    linarith

/-- C1 fails as stated: with baseline 1 and bound 10, a single accepted
peer estimate of value 100 leaves the local estimate at 101, whose
magnitude exceeds the bound. -/
theorem C1_counterexample :
    ¬ (|(foldEstimates baseArgs
          [{ value := 100, timestamp := 5, source := 7 }]).m_salinity_estimated_local.value| ≤
        baseArgs.max_acceptable_salinity) := by
  have h : (foldEstimates baseArgs
      [{ value := 100, timestamp := 5, source := 7 }]).m_salinity_estimated_local.value =
      101 := by
    simp only [foldEstimates, List.foldl_cons, List.foldl_nil, mergeAccept,
      stimateSalinity, initState, baseArgs]
    norm_num
  rw [h]
  norm_num [baseArgs]

/-- C1 amended: the bound alone is not an invariant — an add-branch merge
can overshoot it by up to the accepted value's magnitude — but for every
sequence of accepted peer estimates of magnitude at most M (with the bound
nonnegative), the local estimate's magnitude never exceeds
max(baseline, bound + M) after any merge, starting from the startup merge
that installs the baseline. -/
theorem C1_bounded_with_slack (args : Arguments) (es : List Salinity) (M : ℚ)
    (hb : 0 ≤ args.max_acceptable_salinity) (hM : 0 ≤ M)
    (hes : ∀ s ∈ es, |s.value| ≤ M) :
    |(foldEstimates args es).m_salinity_estimated_local.value| ≤
      max ((args.measured_salinity : ℚ)) (args.max_acceptable_salinity + M) := by
  induction es using List.reverseRecOn with
  | nil =>
      have : (foldEstimates args []).m_salinity_estimated_local.value =
          ((args.measured_salinity : ℚ)) := by
        simp [foldEstimates, stimateSalinity, initState]
      rw [this, abs_of_nonneg (by positivity)]
      exact le_max_left _ _
  | append_singleton l x _ih =>
      rw [foldEstimates, List.foldl_append, List.foldl_cons, List.foldl_nil]
      exact mergeAccept_abs_le args M hb hM _ x (hes x (by simp))

/-- Witness for C1 amended: baseline 1, bound 10, one accepted estimate of
value 3 (M = 3): the local estimate stays within max(1, 13). -/
theorem C1_bounded_with_slack_witness :
    0 ≤ baseArgs.max_acceptable_salinity ∧ 0 ≤ (3 : ℚ) ∧
    (∀ s ∈ [({ value := 3, timestamp := 5, source := 7 } : Salinity)], |s.value| ≤ 3) ∧
    |(foldEstimates baseArgs
        [{ value := 3, timestamp := 5, source := 7 }]).m_salinity_estimated_local.value| ≤
      max ((baseArgs.measured_salinity : ℚ)) (baseArgs.max_acceptable_salinity + 3) :=
  ⟨by decide, by decide, by decide,
    C1_bounded_with_slack baseArgs [{ value := 3, timestamp := 5, source := 7 }] 3
      (by decide) (by decide) (by decide)⟩

end Consensus
